import Mathlib

/-!
Shallow embedding of the progress-bar core of this repository
(src/progress_bar.rs, src/term_like.rs).

Machine integers (u64) are modelled as Nat, with saturation made explicit
at 2^64 - 1 exactly where the source uses saturating_add.  Instant-based
fields (start time, estimator samples) appear in no claim and are not
carried in the state; the estimator and the style/template engine are
external collaborators per the spec and are likewise out of scope.

The repository source under src/ holds progress_bar.rs and term_like.rs
only.  The state module (ProgressState: new, fraction, is_finished,
update_and_draw, the finish family) and the draw-target module
(ProgressDrawTarget: hidden, drawable, is_hidden) are code of this
repository that is not under src/; definitions for those parts are
modelled from the spec and say so in their doc comments.  Everything else
is translated directly from src/src/progress_bar.rs.
-/

/-- Largest u64 value, the saturation bound and also the "unknown length"
sentinel (`!0` in the source). -/
def U64MAX : Nat := 2 ^ 64 - 1

/-- Saturating u64 addition, `u64::saturating_add`. -/
def satAdd (a b : Nat) : Nat := min (a + b) U64MAX

/-- Modelled from the spec: the status field of the Progress Record,
"status {InProgress, Finished}" (the Status type lives in the state
module, which is not under src/). -/
inductive Status
  | InProgress
  | Finished
  deriving Repr, DecidableEq

/-- The numeric/textual state of one bar (ProgressState in the state
module, plus the tick-thread handle that progress_bar.rs stores next to
it).  `tick_thread` models whether the steady-tick thread handle is
present (`tick_thread.is_some()` in the source); `styleOnFinishClear`
models the on-finish policy of the stored style (clear vs leave), the
only style datum the claims touch. -/
structure ProgressState where
  pos : Nat
  len : Nat
  tick : Nat
  steady_tick : Nat
  tick_thread : Bool
  status : Status
  pfx : String
  msg : String
  styleOnFinishClear : Bool
  deriving Repr, DecidableEq

/-- Modelled from the spec: ProgressState::new(len) (state module, not
under src/) — a fresh record at position 0, InProgress, tick counter 0,
steady ticking disabled. -/
def ProgressState.new (len : Nat) : ProgressState :=
  { pos := 0, len := len, tick := 0, steady_tick := 0, tick_thread := false,
    status := Status.InProgress, pfx := "", msg := "", styleOnFinishClear := false }

/-- Modelled from the spec: ProgressState::is_finished (state module, not
under src/) — the status is Finished. -/
def ProgressState.is_finished (s : ProgressState) : Bool :=
  match s.status with
  | Status.Finished => true
  | Status.InProgress => false

/-- The tick-advance block that progress_bar.rs repeats verbatim inside
the update closures of tick, inc, set_position, set_prefix and
set_message:
`if state.steady_tick == 0 || state.tick == 0 { state.tick = state.tick.saturating_add(1); }` -/
def tickIfNeeded (s : ProgressState) : ProgressState :=
  if s.steady_tick = 0 ∨ s.tick = 0 then { s with tick := satAdd s.tick 1 } else s

/-- Modelled from the spec: ProgressState::fraction (state module, not
under src/): "Fraction = 1.0 if length==0; 0.0 if length is the unknown
sentinel; else clamp(position/length, 0, 1)".  Real arithmetic is taken
over ℚ. -/
def ProgressState.fraction (s : ProgressState) : ℚ :=
  if s.len = 0 then 1
  else if s.len = U64MAX then 0
  else min 1 (max 0 ((s.pos : ℚ) / (s.len : ℚ)))

/-- Modelled from the spec: BarState::finish (state module, not under
src/): "finish: snaps position to length (if known), marks Finished". -/
def ProgressState.finish (s : ProgressState) : ProgressState :=
  { s with pos := if s.len = U64MAX then s.pos else s.len,
           status := Status.Finished }

/-- What a call did towards the terminal.  update_and_draw attempts a
rate-limited redraw (throttled: may be skipped by the refresh-rate
check); the finish family forces a redraw that either leaves the frame
visible or clears it.  Modelled from the spec for the calls whose draw
side lives in the state module. -/
inductive DrawAction
  | noDraw
  | throttled
  | forcedVisible
  | forcedClear
  deriving Repr, DecidableEq

/-- ProgressBar::enable_steady_tick(ms): store the interval; if a tick
thread is already running, return; otherwise record the spawned thread
handle and (after releasing the lock) call self.tick(), whose redraw
attempt is the rate-limited one of update_and_draw.  Returns the new
state, whether a thread was spawned, and the draw action of the call. -/
def enable_steady_tick (s : ProgressState) (ms : Nat) : ProgressState × Bool × DrawAction :=
  if s.tick_thread then ({ s with steady_tick := ms }, false, DrawAction.noDraw)
  else (tickIfNeeded { s with steady_tick := ms, tick_thread := true }, true,
        DrawAction.throttled)

/-- The public mutating operations of ProgressBar (src/src/progress_bar.rs). -/
inductive Op
  | tick
  | inc (delta : Nat)
  | setPosition (p : Nat)
  | setLength (l : Nat)
  | incLength (delta : Nat)
  | setPfx (p : String)
  | setMsg (m : String)
  | setStyle (clearOnFinish : Bool)
  | reset
  | resetEta
  | resetElapsed
  | finish
  | finishAtCurrentPos
  | finishWithMessage (m : String)
  | finishAndClear
  | abandon
  | abandonWithMessage (m : String)
  | finishUsingStyle
  | enableSteadyTick (ms : Nat)
  | disableSteadyTick
  deriving Repr, DecidableEq

/-- One public call on the bar: the state mutation applied under the lock
and the draw action taken.  The update closures are translated from
src/src/progress_bar.rs; the finish family and the draw side of
update_and_draw are modelled from the spec (state module, not under
src/).  reset performs reset_eta and reset_elapsed first (estimator and
start time, not carried here) and then zeroes the position and returns
the status to InProgress, exactly as in the source. -/
def applyOp : Op → ProgressState → ProgressState × DrawAction
  | Op.tick, s => (tickIfNeeded s, DrawAction.throttled)
  | Op.inc d, s => (tickIfNeeded { s with pos := satAdd s.pos d }, DrawAction.throttled)
  | Op.setPosition p, s => (tickIfNeeded { s with pos := p }, DrawAction.throttled)
  | Op.setLength l, s => ({ s with len := l }, DrawAction.throttled)
  | Op.incLength d, s => ({ s with len := satAdd s.len d }, DrawAction.throttled)
  | Op.setPfx p, s => (tickIfNeeded { s with pfx := p }, DrawAction.throttled)
  | Op.setMsg m, s => (tickIfNeeded { s with msg := m }, DrawAction.throttled)
  | Op.setStyle b, s => ({ s with styleOnFinishClear := b }, DrawAction.noDraw)
  | Op.reset, s => ({ s with pos := 0, status := Status.InProgress }, DrawAction.throttled)
  | Op.resetEta, s => (s, DrawAction.throttled)
  | Op.resetElapsed, s => (s, DrawAction.throttled)
  | Op.finish, s => (s.finish, DrawAction.forcedVisible)
  | Op.finishAtCurrentPos, s => ({ s with status := Status.Finished }, DrawAction.forcedVisible)
  | Op.finishWithMessage m, s => (ProgressState.finish { s with msg := m }, DrawAction.forcedVisible)
  | Op.finishAndClear, s => ({ s with status := Status.Finished }, DrawAction.forcedClear)
  | Op.abandon, s => ({ s with status := Status.Finished }, DrawAction.forcedVisible)
  | Op.abandonWithMessage m, s =>
      ({ s with msg := m, status := Status.Finished }, DrawAction.forcedVisible)
  | Op.finishUsingStyle, s =>
      if s.styleOnFinishClear then ({ s with status := Status.Finished }, DrawAction.forcedClear)
      else (s.finish, DrawAction.forcedVisible)
  | Op.enableSteadyTick ms, s => ((enable_steady_tick s ms).1, (enable_steady_tick s ms).2.2)
  | Op.disableSteadyTick, s => ((enable_steady_tick s 0).1, (enable_steady_tick s 0).2.2)

/-- Outcome of one wake of the steady-tick loop body. -/
inductive TickOutcome
  | exitDead
  | exitCleared (s : ProgressState)
  | cont (s : ProgressState) (nextMs : Nat) (draw : DrawAction)
  deriving Repr, DecidableEq

/-- One wake of ProgressBar::steady_tick (src/src/progress_bar.rs lines
127–147), after the sleep: the Weak upgrade result is the Option
argument.  On upgrade failure the loop exits; if finished or the
interval was set to 0 it zeroes steady_tick, clears the thread handle
and exits; otherwise it advances the tick counter only when it is
nonzero, re-reads the interval for the next sleep, and calls
state.draw(false, now) — a rate-limited, unforced draw. -/
def steadyTickBody : Option ProgressState → Nat → TickOutcome
  | none, _ => TickOutcome.exitDead
  | some s, _ =>
    if s.is_finished = true ∨ s.steady_tick = 0 then
      TickOutcome.exitCleared { s with steady_tick := 0, tick_thread := false }
    else
      let s1 := if s.tick ≠ 0 then { s with tick := satAdd s.tick 1 } else s
      TickOutcome.cont s1 s1.steady_tick DrawAction.throttled

/-- Modelled from the spec: the Output Target variants of the draw-target
module (not under src/) — Direct terminal, Hidden (suppressed) sink, or
a Remote slot in a shared region. -/
inductive DrawTarget
  | direct
  | hidden
  | remote (idx : Nat)
  deriving Repr, DecidableEq

/-- ProgressDrawTarget::is_hidden, modelled from the spec: only the
Hidden variant reports itself as hidden. -/
def DrawTarget.is_hidden : DrawTarget → Bool
  | DrawTarget.hidden => true
  | _ => false

/-- Modelled from the spec: drawable(force, now) of the draw-target
module (not under src/) — Hidden yields no drawable (every operation a
no-op); Direct and Remote yield one when forced or when the refresh
throttle allows (throttleOpen abstracts the elapsed-time check). -/
def DrawTarget.drawable (t : DrawTarget) (force throttleOpen : Bool) : Bool :=
  match t with
  | DrawTarget.hidden => false
  | _ => force || throttleOpen

/-- The draw request that println hands to its drawable: the lines to
paint, how many of them are orphan lines (scrolled above the live
frame), and the cursor/force flags it sets. -/
structure PrintlnDraw where
  lines : List String
  orphan_lines : Nat
  move_cursor : Bool
  forced : Bool
  deriving Repr, DecidableEq

/-- ProgressBar::println (src/src/progress_bar.rs lines 196–223): asks
the target for a forced drawable (None for a hidden target: return with
nothing written and the state untouched); otherwise the draw state gets
the message lines first, records them all as orphan lines, and appends
the rendered bar frame when the bar should render and the target is not
hidden.  shouldRender abstracts state.should_render() and renderLines
the external formatter output, both collaborators outside src/. -/
def println (st : ProgressState) (t : DrawTarget) (shouldRender : Bool)
    (msgLines renderLines : List String) : ProgressState × Option PrintlnDraw :=
  let draw_lines := shouldRender && !t.is_hidden
  if t.drawable true true then
    let lines := if draw_lines then msgLines ++ renderLines else msgLines
    (st, some { lines := lines, orphan_lines := msgLines.length,
                move_cursor := false, forced := true })
  else (st, none)

/-- Shared-ownership heap for the Arc/Weak reference model: the strong
count of every bar cell.  ProgressBar is an Arc around its state; a
WeakProgressBar is an Option cell id (none for a detached weak handle). -/
structure RcHeap where
  strong : Nat → Nat

/-- Weak::upgrade on the reference-count model: a weak handle to a cell
yields an owning handle exactly while the strong count is positive. -/
def upgrade (h : RcHeap) : Option Nat → Option Nat
  | none => none
  | some id => if 0 < h.strong id then some id else none

/-- ProgressBar::downgrade: a weak handle to the same cell. -/
def ProgressBar.downgrade (id : Nat) : Option Nat := some id

/-- Dropping one owning handle of a cell: its strong count decreases by
one. -/
def dropBar (h : RcHeap) (id : Nat) : RcHeap :=
  ⟨fun j => if j = id then h.strong j - 1 else h.strong j⟩

/-- Cloning an owning handle of a cell: its strong count increases by
one. -/
def cloneBar (h : RcHeap) (id : Nat) : RcHeap :=
  ⟨fun j => if j = id then h.strong j + 1 else h.strong j⟩

/-- WeakProgressBar::new() / Default: a weak handle attached to no cell. -/
def WeakProgressBar.new : Option Nat := none

/-- A concrete in-progress state shared by the concrete evaluations
below. -/
def baseState : ProgressState :=
  { pos := 0, len := 10, tick := 0, steady_tick := 0, tick_thread := false,
    status := Status.InProgress, pfx := "", msg := "", styleOnFinishClear := false }

/-! Helper lemmas shared by several claims. -/

lemma is_finished_iff (s : ProgressState) :
    s.is_finished = true ↔ s.status = Status.Finished := by
  cases h : s.status <;> simp [ProgressState.is_finished, h]

lemma tickIfNeeded_status (s : ProgressState) : (tickIfNeeded s).status = s.status := by
  unfold tickIfNeeded; split <;> rfl

lemma tickIfNeeded_pos (s : ProgressState) : (tickIfNeeded s).pos = s.pos := by
  unfold tickIfNeeded; split <;> rfl

lemma tickIfNeeded_steady (s : ProgressState) :
    (tickIfNeeded s).steady_tick = s.steady_tick := by
  unfold tickIfNeeded; split <;> rfl

lemma tickIfNeeded_tick_zero (s : ProgressState) (h : s.steady_tick = 0) :
    (tickIfNeeded s).tick = satAdd s.tick 1 := by
  unfold tickIfNeeded
  rw [if_pos (Or.inl h)]

lemma tickIfNeeded_tick_active (s : ProgressState) (h1 : s.steady_tick ≠ 0)
    (h2 : s.tick ≠ 0) : (tickIfNeeded s).tick = s.tick := by
  unfold tickIfNeeded
  rw [if_neg]
  intro h
  cases h with
  | inl h => exact h1 h
  | inr h => exact h2 h

lemma enable_steady_tick_status (s : ProgressState) (ms : Nat) :
    ((enable_steady_tick s ms).1).status = s.status := by
  unfold enable_steady_tick
  split
  · rfl
  · rw [tickIfNeeded_status]

/-- C1, counterexample.  The claim says no public operation run after a
finish-family call makes is_finished() return false again, reset
included; but ProgressBar::reset sets the status back to InProgress, so
after finish() then reset() on a bar of length 5, is_finished() is
false. -/
theorem C1_counterexample :
    ((applyOp Op.finish (ProgressState.new 5)).1).is_finished = true ∧
    ((applyOp Op.reset ((applyOp Op.finish (ProgressState.new 5)).1)).1).is_finished = false := by
  decide

/-- C1, amended: once the status is Finished, every public operation
other than reset preserves it; only reset returns the status to
InProgress. -/
theorem C1_no_revert_except_reset (op : Op) (s : ProgressState)
    (hop : op ≠ Op.reset) (hfin : s.is_finished = true) :
    ((applyOp op s).1).is_finished = true := by
  rw [is_finished_iff] at hfin ⊢
  cases op <;>
    simp_all [applyOp, tickIfNeeded_status, enable_steady_tick_status, ProgressState.finish]
  split <;> rfl

/-- C1, witness for the amended theorem at a concrete finished state and
the tick operation. -/
theorem C1_no_revert_except_reset_witness :
    Op.tick ≠ Op.reset ∧
    ({ baseState with status := Status.Finished } : ProgressState).is_finished = true ∧
    ((applyOp Op.tick { baseState with status := Status.Finished }).1).is_finished = true :=
  ⟨by decide, by decide,
   C1_no_revert_except_reset Op.tick { baseState with status := Status.Finished }
     (by decide) (by decide)⟩

/-- C2, counterexample.  The claim says position() returns 2 after
new(1), inc(2), finish(); but finish snaps the position to the length,
so position() is 1 afterward, not 2. -/
theorem C2_counterexample :
    ((applyOp Op.finish ((applyOp (Op.inc 2) (ProgressState.new 1)).1)).1).pos ≠ 2 := by
  decide

/-- C2, amended: new(1) then inc(2) does not fail and leaves position 2
(the increment saturates at u64::MAX, it is not clamped to the length
1); the subsequent finish() also does not fail, marks the bar finished,
and snaps the position to the length, so position() is 1 after
finish. -/
theorem C2_saturating_inc_then_finish :
    ((applyOp (Op.inc 2) (ProgressState.new 1)).1).pos = 2 ∧
    ((applyOp (Op.inc 2) (ProgressState.new 1)).1).len = 1 ∧
    ((applyOp Op.finish ((applyOp (Op.inc 2) (ProgressState.new 1)).1)).1).pos = 1 ∧
    ((applyOp Op.finish ((applyOp (Op.inc 2) (ProgressState.new 1)).1)).1).is_finished = true := by
  decide

/-- C3: on a bar whose length is not the unknown sentinel, finish() sets
the position to the length, marks the status Finished, and forces a
redraw that leaves the frame visible. -/
theorem C3_finish_snaps (s : ProgressState) (h : s.len ≠ U64MAX) :
    ((applyOp Op.finish s).1).pos = s.len ∧
    ((applyOp Op.finish s).1).is_finished = true ∧
    (applyOp Op.finish s).2 = DrawAction.forcedVisible := by
  refine ⟨?_, ?_, rfl⟩
  · simp [applyOp, ProgressState.finish, h]
  · simp [applyOp, ProgressState.finish, ProgressState.is_finished]

/-- C3, witness at a bar of length 5. -/
theorem C3_finish_snaps_witness :
    (ProgressState.new 5).len ≠ U64MAX ∧
    ((applyOp Op.finish (ProgressState.new 5)).1).pos = (ProgressState.new 5).len ∧
    ((applyOp Op.finish (ProgressState.new 5)).1).is_finished = true ∧
    (applyOp Op.finish (ProgressState.new 5)).2 = DrawAction.forcedVisible :=
  ⟨by decide, (C3_finish_snaps (ProgressState.new 5) (by decide)).1,
   (C3_finish_snaps (ProgressState.new 5) (by decide)).2.1,
   (C3_finish_snaps (ProgressState.new 5) (by decide)).2.2⟩

/-- C4, counterexample.  The claim says every listed explicit mutating
call increments the tick counter by exactly one when the steady-tick
interval is 0; but the update closure of set_length only assigns the
length and never touches the tick counter, so on a fresh bar
(steady_tick = 0, tick = 0) set_length(7) leaves the tick counter at 0
instead of satAdd 0 1 = 1. -/
theorem C4_counterexample :
    (ProgressState.new 10).steady_tick = 0 ∧
    ((applyOp (Op.setLength 7) (ProgressState.new 10)).1).tick = 0 ∧
    satAdd (ProgressState.new 10).tick 1 = 1 := by
  decide

/-- C4, amended: tick, inc, set_position, set_prefix and set_message
increment the tick counter by exactly one (saturating) when the
steady-tick interval is 0, and leave it unchanged when steady ticking is
active and the counter is nonzero; set_length and inc_length never
change the tick counter. -/
theorem C4_tick_counter (s : ProgressState) (d p l d2 : Nat) (pf m : String) :
    (s.steady_tick = 0 →
      ((applyOp Op.tick s).1).tick = satAdd s.tick 1 ∧
      ((applyOp (Op.inc d) s).1).tick = satAdd s.tick 1 ∧
      ((applyOp (Op.setPosition p) s).1).tick = satAdd s.tick 1 ∧
      ((applyOp (Op.setPfx pf) s).1).tick = satAdd s.tick 1 ∧
      ((applyOp (Op.setMsg m) s).1).tick = satAdd s.tick 1) ∧
    (s.steady_tick ≠ 0 → s.tick ≠ 0 →
      ((applyOp Op.tick s).1).tick = s.tick ∧
      ((applyOp (Op.inc d) s).1).tick = s.tick ∧
      ((applyOp (Op.setPosition p) s).1).tick = s.tick ∧
      ((applyOp (Op.setPfx pf) s).1).tick = s.tick ∧
      ((applyOp (Op.setMsg m) s).1).tick = s.tick) ∧
    ((applyOp (Op.setLength l) s).1).tick = s.tick ∧
    ((applyOp (Op.incLength d2) s).1).tick = s.tick := by
  refine ⟨fun h0 => ?_, fun h1 h2 => ?_, rfl, rfl⟩
  · exact ⟨tickIfNeeded_tick_zero s h0, tickIfNeeded_tick_zero _ h0,
      tickIfNeeded_tick_zero _ h0, tickIfNeeded_tick_zero _ h0,
      tickIfNeeded_tick_zero _ h0⟩
  · exact ⟨tickIfNeeded_tick_active s h1 h2, tickIfNeeded_tick_active _ h1 h2,
      tickIfNeeded_tick_active _ h1 h2, tickIfNeeded_tick_active _ h1 h2,
      tickIfNeeded_tick_active _ h1 h2⟩

/-- C4, witness at a fresh bar of length 10 (steady ticking disabled):
the tick call advances the counter from 0 to 1. -/
theorem C4_tick_counter_witness :
    (ProgressState.new 10).steady_tick = 0 ∧
    ((applyOp Op.tick (ProgressState.new 10)).1).tick = satAdd (ProgressState.new 10).tick 1 :=
  ⟨by decide, ((C4_tick_counter (ProgressState.new 10) 1 2 3 4 "p" "m").1 (by decide)).1⟩

/-- C5, counterexample.  The claim says that when the bar is alive,
unfinished and the interval nonzero, the loop body advances the tick
counter and forces a draw; but the body only advances the counter when
it is already nonzero, and its draw call is state.draw(false, now), a
rate-limited unforced draw.  At a live state with tick = 0 and interval
12 the body leaves the counter at 0 and records a throttled draw. -/
theorem C5_counterexample :
    steadyTickBody (some { baseState with steady_tick := 12, tick_thread := true }) 12 =
      TickOutcome.cont { baseState with steady_tick := 12, tick_thread := true } 12
        DrawAction.throttled ∧
    ({ baseState with steady_tick := 12, tick_thread := true } : ProgressState).tick = 0 ∧
    satAdd 0 1 = 1 ∧ DrawAction.throttled ≠ DrawAction.forcedVisible := by
  decide

/-- C5, amended: on every wake of the steady-tick loop, the next sleep
interval is re-read from the current steady-tick setting; if the bar
state no longer exists the loop exits; if the bar is finished or the
interval has been set to 0 the body zeroes the interval, clears the
thread handle on the bar and exits; otherwise it advances the tick
counter only when the counter is nonzero and performs a rate-limited,
unforced draw. -/
theorem C5_steady_tick_loop (o : Option ProgressState) (ms : Nat) :
    (o = none → steadyTickBody o ms = TickOutcome.exitDead) ∧
    (∀ s, o = some s → (s.is_finished = true ∨ s.steady_tick = 0) →
      steadyTickBody o ms =
        TickOutcome.exitCleared { s with steady_tick := 0, tick_thread := false }) ∧
    (∀ s, o = some s → s.is_finished = false → s.steady_tick ≠ 0 →
      steadyTickBody o ms =
        TickOutcome.cont (if s.tick ≠ 0 then { s with tick := satAdd s.tick 1 } else s)
          s.steady_tick DrawAction.throttled) := by
  refine ⟨fun h => by subst h; rfl, fun s h hfin => ?_, fun s h hfin hst => ?_⟩
  · subst h
    simp only [steadyTickBody]
    rw [if_pos hfin]
  · subst h
    simp only [steadyTickBody]
    rw [if_neg (fun hc => by
      cases hc with
      | inl hc => rw [hfin] at hc; exact Bool.false_ne_true hc
      | inr hc => exact hst hc)]
    by_cases ht : s.tick = 0
    · simp [ht]
    · simp [ht]

/-- C5, witness: a live bar with tick counter 2 and interval 12 advances
to 3, the next sleep interval is the re-read 12, and the draw is the
rate-limited one. -/
theorem C5_steady_tick_loop_witness :
    steadyTickBody (some { baseState with steady_tick := 12, tick_thread := true, tick := 2 }) 7 =
      TickOutcome.cont { baseState with steady_tick := 12, tick_thread := true, tick := 3 } 12
        DrawAction.throttled := by
  have h := (C5_steady_tick_loop
    (some { baseState with steady_tick := 12, tick_thread := true, tick := 2 }) 7).2.2
    { baseState with steady_tick := 12, tick_thread := true, tick := 2 }
    rfl (by decide) (by decide)
  simpa using h

/-- C6, counterexample.  The claim says enable_steady_tick then forces
one immediate tick and draw; but the immediate tick goes through
update_and_draw, whose redraw attempt is rate-limited, not forced: on a
fresh bar the recorded draw action is throttled, not a forced one. -/
theorem C6_counterexample :
    (enable_steady_tick baseState 10).2 = (true, DrawAction.throttled) ∧
    DrawAction.throttled ≠ DrawAction.forcedVisible ∧
    DrawAction.throttled ≠ DrawAction.forcedClear := by
  decide

/-- C6, amended: every call to enable_steady_tick stores the interval; it
spawns the background tick thread exactly when one is not already
running, and in that case immediately performs one tick update (whose
redraw attempt is rate-limited, not forced); when a thread is already
running the call changes nothing but the stored interval and neither
ticks nor draws. -/
theorem C6_enable_steady_tick (s : ProgressState) (ms : Nat) :
    ((enable_steady_tick s ms).2.1 = true ↔ s.tick_thread = false) ∧
    ((enable_steady_tick s ms).1).steady_tick = ms ∧
    (s.tick_thread = false →
      enable_steady_tick s ms =
        (tickIfNeeded { s with steady_tick := ms, tick_thread := true }, true,
         DrawAction.throttled)) ∧
    (s.tick_thread = true →
      enable_steady_tick s ms = ({ s with steady_tick := ms }, false, DrawAction.noDraw)) := by
  unfold enable_steady_tick
  cases h : s.tick_thread <;> simp [h, tickIfNeeded_steady]

/-- C6, witness at a fresh bar (no tick thread running) and interval 10:
the call spawns, stores the interval, ticks once and records the
rate-limited draw. -/
theorem C6_enable_steady_tick_witness :
    baseState.tick_thread = false ∧
    enable_steady_tick baseState 10 =
      (tickIfNeeded { baseState with steady_tick := 10, tick_thread := true }, true,
       DrawAction.throttled) :=
  ⟨by decide, (C6_enable_steady_tick baseState 10).2.2.1 (by decide)⟩

/-- C7: the fraction of a bar — 1 when the length is 0 regardless of
position; 0 when the length is the unknown sentinel regardless of
position; within [0,1] when position ≤ length < sentinel; clamped to 1
when position exceeds the length. -/
theorem C7_fraction (s : ProgressState) (hp : s.pos ≤ U64MAX) :
    (s.len = 0 → s.fraction = 1) ∧
    (s.len = U64MAX → s.fraction = 0) ∧
    (s.pos ≤ s.len → s.len < U64MAX → 0 ≤ s.fraction ∧ s.fraction ≤ 1) ∧
    (s.len < s.pos → s.fraction = 1) := by
  refine ⟨fun h0 => ?_, fun hmax => ?_, fun hpl hlt => ?_, fun hlp => ?_⟩
  · simp [ProgressState.fraction, h0]
  · unfold ProgressState.fraction
    rw [hmax]
    norm_num [U64MAX]
  · unfold ProgressState.fraction
    split
    · norm_num
    · split
      · norm_num
      · exact ⟨le_min (by norm_num) (le_max_left _ _), min_le_left _ _⟩
  · unfold ProgressState.fraction
    rcases Nat.eq_zero_or_pos s.len with h0 | hpos
    · rw [if_pos h0]
    · have hne : s.len ≠ 0 := Nat.pos_iff_ne_zero.mp hpos
      have hneMax : s.len ≠ U64MAX := by
        intro h
        rw [h] at hlp
        exact absurd hp (not_le.mpr hlp)
      rw [if_neg hne, if_neg hneMax]
      have hposQ : (0 : ℚ) < (s.len : ℚ) := by exact_mod_cast hpos
      have hge1 : (1 : ℚ) ≤ (s.pos : ℚ) / (s.len : ℚ) := by
        rw [one_le_div hposQ]
        exact_mod_cast hlp.le
      rw [max_eq_right (le_trans zero_le_one hge1), min_eq_left hge1]

/-- C7, witness at position 3 of length 4: the fraction lies in [0,1]. -/
theorem C7_fraction_witness :
    ({ baseState with pos := 3, len := 4 } : ProgressState).pos ≤ U64MAX ∧
    (0 ≤ ProgressState.fraction { baseState with pos := 3, len := 4 } ∧
     ProgressState.fraction { baseState with pos := 3, len := 4 } ≤ 1) :=
  ⟨by decide,
   (C7_fraction { baseState with pos := 3, len := 4 } (by decide)).2.2.1
     (by decide) (by decide)⟩

/-- C8: on the reference-count model of Arc/Weak, a weak handle obtained
by downgrade() upgrades to an owning handle of the same cell exactly
while the strong count is positive, and fails to upgrade immediately
after the last owning handle is dropped. -/
theorem C8_weak_upgrade (h : RcHeap) (id : Nat) :
    (0 < h.strong id → upgrade h (ProgressBar.downgrade id) = some id) ∧
    (h.strong id = 0 → upgrade h (ProgressBar.downgrade id) = none) ∧
    (h.strong id = 1 → upgrade (dropBar h id) (ProgressBar.downgrade id) = none) := by
  refine ⟨fun hpos => ?_, fun hz => ?_, fun h1 => ?_⟩
  · simp [upgrade, ProgressBar.downgrade, hpos]
  · simp [upgrade, ProgressBar.downgrade, hz]
  · simp [upgrade, ProgressBar.downgrade, dropBar, h1]

/-- C8, witness: one owning handle of cell 0 upgrades; after dropping it,
upgrade fails. -/
theorem C8_weak_upgrade_witness :
    upgrade ⟨fun j => if j = 0 then 1 else 0⟩ (ProgressBar.downgrade 0) = some 0 ∧
    upgrade (dropBar ⟨fun j => if j = 0 then 1 else 0⟩ 0) (ProgressBar.downgrade 0) = none :=
  ⟨(C8_weak_upgrade ⟨fun j => if j = 0 then 1 else 0⟩ 0).1 (by decide),
   (C8_weak_upgrade ⟨fun j => if j = 0 then 1 else 0⟩ 0).2.2 (by decide)⟩

/-- C9: println on a hidden target writes nothing and leaves the state
unchanged; on a non-hidden target it leaves the state unchanged and
emits a draw whose lines start with exactly the message lines, all of
them recorded as orphan lines scrolled above the live frame. -/
theorem C9_println (st : ProgressState) (t : DrawTarget) (sr : Bool) (m r : List String) :
    (t.is_hidden = true → println st t sr m r = (st, none)) ∧
    (t.is_hidden = false →
      (println st t sr m r).1 = st ∧
      (println st t sr m r).2 =
        some { lines := if sr then m ++ r else m, orphan_lines := m.length,
               move_cursor := false, forced := true } ∧
      (if sr then m ++ r else m).take m.length = m) := by
  cases t with
  | hidden =>
    constructor
    · intro _
      rfl
    · intro hh
      simp [DrawTarget.is_hidden] at hh
  | direct =>
    constructor
    · intro hh
      simp [DrawTarget.is_hidden] at hh
    · intro _
      refine ⟨rfl, ?_, ?_⟩
      · cases sr <;> rfl
      · cases sr <;> simp [List.take_left, List.take_length]
  | remote idx =>
    constructor
    · intro hh
      simp [DrawTarget.is_hidden] at hh
    · intro _
      refine ⟨rfl, ?_, ?_⟩
      · cases sr <;> rfl
      · cases sr <;> simp [List.take_left, List.take_length]

/-- C9, witness: on the hidden target println is a no-op; on the direct
target it emits the log line as the single orphan line followed by the
rendered frame. -/
theorem C9_println_witness :
    println baseState DrawTarget.hidden true ["log"] ["frame"] = (baseState, none) ∧
    (println baseState DrawTarget.direct true ["log"] ["frame"]).2 =
      some { lines := ["log", "frame"], orphan_lines := 1,
             move_cursor := false, forced := true } :=
  ⟨(C9_println baseState DrawTarget.hidden true ["log"] ["frame"]).1 rfl,
   by simpa using
     ((C9_println baseState DrawTarget.direct true ["log"] ["frame"]).2 rfl).2.1⟩

/-- C10: a WeakProgressBar made by WeakProgressBar::new() (or Default) is
attached to no cell, so upgrade() returns None in every heap, at every
point of every execution. -/
theorem C10_weak_new_upgrade (h : RcHeap) : upgrade h WeakProgressBar.new = none := rfl
